import Mathlib

/-!
Verification development for the Anchor Sync Engine of js-ceramic
(`packages/core/src/sync`) and its index/query gating layer
(`packages/core/src/indexing/local-index-api.ts` and
`packages/core/src/indexing/database-index-api.ts`).

The sync orchestrator (`sync-api.ts`) is not part of the provided sources
(only its test suite is), so its state and operations are modelled from the
specification text; each such definition carries a doc comment starting with
`Modelled from the spec:`.  The index layer definitions are translated
directly from `local-index-api.ts` / `database-index-api.ts`.
-/

namespace Ceramic

namespace SyncApi

/-- Modelled from the spec: the confirmation depth constant
`BLOCK_CONFIRMATIONS` of `sync-api.ts` (the tests report `confirmations: 20`
in `syncStatus`, and `499 - BLOCK_CONFIRMATIONS = 479`). -/
def BLOCK_CONFIRMATIONS : Int := 20

/-- Modelled from the spec: the `SyncJobType` enum of `sync/interfaces.ts`
(`Catchup | Full | Continuous`). -/
inductive SyncJobType where
  | catchup
  | full
  | continuous
deriving Repr, DecidableEq

/-- Modelled from the spec: the three named job queues (`HISTORY_SYNC_JOB`,
`CONTINUOUS_SYNC_JOB`, `REBUILD_ANCHOR_JOB`). -/
inductive QueueName where
  | history
  | continuous
  | rebuild
deriving Repr, DecidableEq

/-- Modelled from the spec: `SyncJobRequest`,
`{ jobType, fromBlock, toBlock, models }`. -/
structure SyncJobData where
  jobType : SyncJobType
  fromBlock : Int
  toBlock : Int
  models : List String
deriving Repr, DecidableEq

/-- A block reference `{ hash, number }` as returned by the chain provider. -/
structure Block where
  hash : String
  number : Int
deriving Repr, DecidableEq

/-- Modelled from the spec: `BlockConfirmationEvent`,
`{ block, reorganized }` (the optional `expectedParentHash` plays no role in
the handler branches modelled here). -/
structure BlockConfirmationEvent where
  block : Block
  reorganized : Bool
deriving Repr, DecidableEq

/-- Modelled from the spec: the `SyncProgress` singleton row,
`{ processedBlockHash, processedBlockNumber }`, with unset fields for a
never-synced node. -/
structure SyncProgress where
  processedBlockHash : Option String
  processedBlockNumber : Option Int
deriving Repr, DecidableEq

/-- Modelled from the spec: the orchestrator state owned by `SyncApi` —
`modelsToSync` (the `ModelSyncSet`), `modelsToHistoricSync` (the
`HistoricSyncCounter`, an association list from model id to outstanding
historical-sync count), the sequence of jobs enqueued so far (queue name
paired with payload, in submission order) and the persisted progress row. -/
structure SyncState where
  modelsToSync : List String
  modelsToHistoricSync : List (String × Nat)
  jobs : List (QueueName × SyncJobData)
  progress : SyncProgress
deriving Repr, DecidableEq

/-- Lookup in the counter association list (`Map.get` semantics: `none` for
an absent key). -/
def findCounter : List (String × Nat) → String → Option Nat
  | [], _ => none
  | (k, v) :: rest, m => if k = m then some v else findCounter rest m

/-- Counter value of a model: the stored count, or `0` when absent. -/
def cval (cs : List (String × Nat)) (m : String) : Nat :=
  (findCounter cs m).getD 0

/-- Increment the counter of one model, creating the entry (at `1`) when
absent. -/
def bumpCounter : List (String × Nat) → String → List (String × Nat)
  | [], m => [(m, 1)]
  | (k, v) :: rest, m =>
    if k = m then (k, v + 1) :: rest else (k, v) :: bumpCounter rest m

/-- Modelled from the spec: `syncComplete(modelId)` returns true iff
`HistoricSyncCounter[modelId]` is zero or absent. -/
def syncComplete (s : SyncState) (m : String) : Bool :=
  match findCounter s.modelsToHistoricSync m with
  | none => true
  | some v => v == 0

/-- Modelled from the spec: `_addSyncJob(queueName, data)` enqueues the job
via the Job Queue and, exactly when the queue is the historical queue,
increments `HistoricSyncCounter[model]` for every model in `data.models`
(creating absent entries). -/
def addSyncJob (s : SyncState) (q : QueueName) (d : SyncJobData) : SyncState :=
  { s with
    jobs := s.jobs ++ [(q, d)]
    modelsToHistoricSync :=
      if q = QueueName.history then d.models.foldl bumpCounter s.modelsToHistoricSync
      else s.modelsToHistoricSync }

/-- Modelled from the spec: `_handleBlockProofs(event)` — on a
reorganization, enqueue a historical job covering
`[max(0, block.number - BLOCK_CONFIRMATIONS), block.number]` for all
currently-synced models; otherwise enqueue a continuous job covering
`[block.number, block.number]`; in both cases persist
`SyncProgress = { processedBlockHash: block.hash, processedBlockNumber:
block.number }` after scheduling. -/
def handleBlockProofs (s : SyncState) (e : BlockConfirmationEvent) : SyncState :=
  let s2 :=
    if e.reorganized then
      addSyncJob s QueueName.history
        { jobType := SyncJobType.catchup
          fromBlock := max 0 (e.block.number - BLOCK_CONFIRMATIONS)
          toBlock := e.block.number
          models := s.modelsToSync }
    else
      addSyncJob s QueueName.continuous
        { jobType := SyncJobType.continuous
          fromBlock := e.block.number
          toBlock := e.block.number
          models := s.modelsToSync }
  { s2 with
    progress :=
      { processedBlockHash := some e.block.hash
        processedBlockNumber := some e.block.number } }

/-- Modelled from the spec: the catch-up portion of `init(chainProvider)` —
load progress, populate `ModelSyncSet` from the indexed models, query the
chain provider for the block at depth `BLOCK_CONFIRMATIONS` behind the head
(`getBlock(-BLOCK_CONFIRMATIONS)`, the safe tip), then: unset progress ⇒
one historical job `[0, safeTip.number]`; processed block below the safe
tip ⇒ one historical job `[processed, safeTip.number]`; otherwise no
catch-up job. -/
def initSync (getBlock : Int → Block) (progress : SyncProgress)
    (indexedModels : List String) (s : SyncState) : SyncState :=
  let safeTip := getBlock (-BLOCK_CONFIRMATIONS)
  let s2 := { s with modelsToSync := indexedModels, progress := progress }
  match progress.processedBlockNumber with
  | none =>
    addSyncJob s2 QueueName.history
      { jobType := SyncJobType.catchup
        fromBlock := 0
        toBlock := safeTip.number
        models := indexedModels }
  | some n =>
    if n < safeTip.number then
      addSyncJob s2 QueueName.history
        { jobType := SyncJobType.catchup
          fromBlock := n
          toBlock := safeTip.number
          models := indexedModels }
    else s2

/-- Modelled from the spec: the `models: modelId | [modelId]` union argument
of `startModelSync` / `stopModelSync`. -/
inductive ModelInput where
  | one (m : String)
  | many (ms : List String)

/-- Modelled from the spec: normalization of a single model id to a
one-element list. -/
def ModelInput.normalize : ModelInput → List String
  | ModelInput.one m => [m]
  | ModelInput.many ms => ms

/-- Insertion into the `ModelSyncSet` (JS `Set.add` semantics: no duplicate
membership, insertion order preserved). -/
def insertModel (set : List String) (m : String) : List String :=
  if m ∈ set then set else set ++ [m]

/-- Modelled from the spec: `startModelSync(models, fromBlock, toBlock)` —
normalize the input, add every id to `ModelSyncSet`, and enqueue one
historical job `{Catchup, fromBlock, toBlock, models}`. -/
def startModelSync (s : SyncState) (input : ModelInput) (fromBlock toBlock : Int) :
    SyncState :=
  let ms := input.normalize
  let s2 := { s with modelsToSync := ms.foldl insertModel s.modelsToSync }
  addSyncJob s2 QueueName.history
    { jobType := SyncJobType.catchup
      fromBlock := fromBlock
      toBlock := toBlock
      models := ms }

/-- Modelled from the spec: `stopModelSync(models)` — normalize the input
and remove each id from `ModelSyncSet`; removal of an absent model is a
no-op. -/
def stopModelSync (s : SyncState) (input : ModelInput) : SyncState :=
  { s with
    modelsToSync := s.modelsToSync.filter (fun m => !(input.normalize.contains m)) }

/-- Modelled from the spec: a `QueuedJob` as used by `syncStatus` — the
payload, the optional worker progress cursor `data.currentBlock`, and the
queue bookkeeping fields (timestamps modelled as integers). -/
structure QueuedJob where
  data : SyncJobData
  currentBlock : Option Int
  id : String
  createdOn : Int
  startedOn : Option Int
deriving Repr, DecidableEq

/-- One entry of `syncStatus().activeSyncs`. -/
structure ActiveSyncStatus where
  models : List String
  startBlock : Int
  currentBlock : Option Int
  endBlock : Int
  startedAt : Option Int
  createdAt : Int
deriving Repr, DecidableEq

/-- One entry of `syncStatus().pendingSyncs`. -/
structure PendingSyncStatus where
  models : List String
  startBlock : Int
  endBlock : Int
  createdAt : Int
deriving Repr, DecidableEq

/-- The `syncStatus().continuousSync` entry. -/
structure ContinuousSyncStatus where
  confirmations : Int
  currentBlock : Int
  latestBlock : Int
  startBlock : Int
  models : List String
deriving Repr, DecidableEq

/-- The full `syncStatus()` snapshot. -/
structure SyncStatus where
  activeSyncs : List ActiveSyncStatus
  continuousSync : List ContinuousSyncStatus
  pendingSyncs : List PendingSyncStatus
deriving Repr, DecidableEq

/-- Modelled from the spec: `syncStatus()` computed from a point-in-time
job-queue snapshot — `activeSyncs` maps the active historical jobs,
`pendingSyncs` maps the created historical jobs, and `continuousSync` is a
single entry: the first active continuous job if one exists (its
`data.fromBlock` and models), otherwise
`orchestrator.currentBlock - BLOCK_CONFIRMATIONS` with the `ModelSyncSet`;
in both cases `confirmations = BLOCK_CONFIRMATIONS`,
`latestBlock = orchestrator.currentBlock`,
`startBlock = orchestrator.startBlock`. -/
def syncStatus (activeHistory activeContinuous createdHistory : List QueuedJob)
    (currentBlock startBlock : Int) (modelsToSync : List String) : SyncStatus :=
  { activeSyncs := activeHistory.map fun j =>
      { models := j.data.models
        startBlock := j.data.fromBlock
        currentBlock := j.currentBlock
        endBlock := j.data.toBlock
        startedAt := j.startedOn
        createdAt := j.createdOn }
    continuousSync :=
      [match activeContinuous.head? with
       | some j =>
         { confirmations := BLOCK_CONFIRMATIONS
           currentBlock := j.data.fromBlock
           latestBlock := currentBlock
           startBlock := startBlock
           models := j.data.models }
       | none =>
         { confirmations := BLOCK_CONFIRMATIONS
           currentBlock := currentBlock - BLOCK_CONFIRMATIONS
           latestBlock := currentBlock
           startBlock := startBlock
           models := modelsToSync }]
    pendingSyncs := createdHistory.map fun j =>
      { models := j.data.models
        startBlock := j.data.fromBlock
        endBlock := j.data.toBlock
        createdAt := j.createdOn } }

end SyncApi

namespace Indexing

/-- Errors raised by the index layer: `Model ... is not indexed` (from
`assertModelIsIndexed`), `IndexQueryNotAvailableError` (from
`assertNoOngoingSyncForModel`) and `Cannot re-index model ...` (from
`LocalIndexApi.indexModels`). -/
inductive IndexError where
  | notIndexed (model : String)
  | queryNotAvailable (model : String)
  | cannotReIndex (model : String)
deriving Repr, DecidableEq

/-- A `BaseQuery` as consumed by `count` / `page`: the model (StreamIDs are
modelled as strings) plus the optional account filter; the content filters
are folded into the abstract database functions below. -/
structure BaseQuery where
  model : String
  account : Option String
deriving Repr, DecidableEq

/-- State of a `DatabaseIndexApi` backend: the in-memory `indexedModels`
list, the `is_indexed = false` rows of the config table (read by
`getModelsNoLongerIndexed`), the `allowQueriesBeforeHistoricalSync`
constructor flag, the `syncApi.syncComplete` collaborator, the rows written
by `indexStream` (table name × stream id, the upsert key), and the SQL
count/page collaborators (`dbConnection` count and `InsertionOrder.page`),
which are external to this layer. -/
structure DatabaseIndexState where
  indexedModels : List String
  noLongerIndexed : List String
  allowQueriesBeforeHistoricalSync : Bool
  syncComplete : String → Bool
  rows : List (String × String)
  dbCount : BaseQuery → Nat
  dbPage : BaseQuery → List String

/-- Translation of `DatabaseIndexApi.assertModelIsIndexed`: throws
`Model ... is not indexed` unless the model is in `indexedModels`. -/
def assertModelIsIndexed (b : DatabaseIndexState) (m : String) :
    Except IndexError Unit :=
  if m ∈ b.indexedModels then Except.ok ()
  else Except.error (IndexError.notIndexed m)

/-- Translation of `DatabaseIndexApi.assertNoOngoingSyncForModel`: throws
`IndexQueryNotAvailableError` exactly when the
`allowQueriesBeforeHistoricalSync` flag is off and `syncApi.syncComplete`
reports the model as not yet synced. -/
def assertNoOngoingSyncForModel (b : DatabaseIndexState) (m : String) :
    Except IndexError Unit :=
  if !b.allowQueriesBeforeHistoricalSync && !b.syncComplete m then
    Except.error (IndexError.queryNotAvailable m)
  else Except.ok ()

/-- Translation of `DatabaseIndexApi.assertModelQueryable`: first the
indexed-model check, then the ongoing-sync check. -/
def assertModelQueryable (b : DatabaseIndexState) (m : String) :
    Except IndexError Unit := do
  assertModelIsIndexed b m
  assertNoOngoingSyncForModel b m

/-- Translation of `DatabaseIndexApi.count`: assert the model is queryable,
then delegate the filtered row count to the database. -/
def countQuery (b : DatabaseIndexState) (q : BaseQuery) : Except IndexError Nat := do
  assertModelQueryable b q.model
  return b.dbCount q

/-- Translation of `DatabaseIndexApi.page`: assert the model is queryable,
then delegate to `InsertionOrder.page`. -/
def pageQuery (b : DatabaseIndexState) (q : BaseQuery) :
    Except IndexError (List String) := do
  assertModelQueryable b q.model
  return b.dbPage q

/-- Arguments of `indexStream`, restricted to the fields that determine the
upsert key (the remaining content columns do not affect the frame property
verified here). -/
structure IndexStreamArgs where
  streamID : String
  model : String
deriving Repr, DecidableEq

/-- Translation of `DatabaseIndexApi.indexStream`: upsert one row into the
model table, keyed on the stream id (`onConflict(stream_id).merge`). -/
def dbIndexStream (b : DatabaseIndexState) (args : IndexStreamArgs) :
    DatabaseIndexState :=
  { b with
    rows :=
      if (args.model, args.streamID) ∈ b.rows then b.rows
      else b.rows ++ [(args.model, args.streamID)] }

/-- State of a `LocalIndexApi`: the optional database backend
(`databaseIndexApi` is `undefined` when indexing is not configured). -/
structure LocalIndexState where
  backend : Option DatabaseIndexState

/-- Translation of `LocalIndexApi.shouldIndexStream`: false without a
backend, otherwise membership in the backend indexed models. -/
def shouldIndexStream (s : LocalIndexState) (model : String) : Bool :=
  match s.backend with
  | none => false
  | some b => b.indexedModels.contains model

/-- Translation of `LocalIndexApi.indexStream`: return immediately when the
model is not actively indexed, otherwise perform the backend upsert. -/
def indexStream (s : LocalIndexState) (args : IndexStreamArgs) : LocalIndexState :=
  if shouldIndexStream s args.model then
    match s.backend with
    | some b => { backend := some (dbIndexStream b args) }
    | none => s
  else s

/-- Translation of the registration loop of `DatabaseIndexApi.indexModels`:
for each model, assert no ongoing sync (an exception carries the state at
throw time, mirroring the mutations already performed), then append it to
`indexedModels` unless already present. -/
def registerModels :
    DatabaseIndexState → List String → Except (IndexError × DatabaseIndexState) DatabaseIndexState
  | b, [] => Except.ok b
  | b, m :: rest =>
    match assertNoOngoingSyncForModel b m with
    | Except.error e => Except.error (e, b)
    | Except.ok _ =>
      registerModels
        { b with
          indexedModels :=
            if m ∈ b.indexedModels then b.indexedModels
            else b.indexedModels ++ [m] }
        rest

/-- Translation of `DatabaseIndexApi.indexModels`: first
`indexModelsInDatabase` upserts the config rows with `is_indexed = true`
(so the listed models leave the `is_indexed = false` set), then the
registration loop runs. -/
def dbIndexModels (b : DatabaseIndexState) (models : List String) :
    Except (IndexError × DatabaseIndexState) DatabaseIndexState :=
  registerModels
    { b with noLongerIndexed := b.noLongerIndexed.filter (fun m => !(models.contains m)) }
    models

/-- The re-index check of `LocalIndexApi.indexModels`: the first model of
the list found among the models no longer indexed, if any (the source loop
throws at the first offender). -/
def findReindexViolation (noLonger models : List String) : Option String :=
  models.find? (fun m => noLonger.contains m)

/-- Translation of `LocalIndexApi.indexModels`: return for an absent model
list; fetch `getModelsNoLongerIndexed` from the backend when present; walk
the list accumulating index args, throwing `Cannot re-index model ...` at
the first model found in that set — before the backend registration call is
reached; finally delegate to `DatabaseIndexApi.indexModels`.  Exceptions
carry the state at throw time. -/
def indexModels (s : LocalIndexState) (models : Option (List String)) :
    Except (IndexError × LocalIndexState) LocalIndexState :=
  match models with
  | none => Except.ok s
  | some ms =>
    match s.backend with
    | none => Except.ok s
    | some b =>
      match findReindexViolation b.noLongerIndexed ms with
      | some m => Except.error (IndexError.cannotReIndex m, s)
      | none =>
        match dbIndexModels b ms with
        | Except.error (e, b2) => Except.error (e, { backend := some b2 })
        | Except.ok b2 => Except.ok { backend := some b2 }

end Indexing

/-! Helper lemmas about the historical-sync counter map. -/

namespace SyncApi

theorem cval_bumpCounter (cs : List (String × Nat)) (m m2 : String) :
    cval (bumpCounter cs m) m2 = if m2 = m then cval cs m2 + 1 else cval cs m2 := by
  induction cs with
  | nil =>
    by_cases h : m2 = m <;> simp [bumpCounter, cval, findCounter, h, Ne.symm]
  | cons kv rest ih =>
    obtain ⟨k, v⟩ := kv
    by_cases hk : k = m
    · subst hk
      by_cases h2 : m2 = k
      · subst h2
        simp [bumpCounter, cval, findCounter]
      · simp [bumpCounter, cval, findCounter, h2, Ne.symm h2]
    · by_cases h2 : k = m2
      · subst h2
        simp [bumpCounter, cval, findCounter, hk]
      · simpa [bumpCounter, cval, findCounter, hk, h2] using ih

theorem cval_foldl_bump (ms : List String) (cs : List (String × Nat)) (m : String) :
    cval (ms.foldl bumpCounter cs) m = cval cs m + ms.count m := by
  induction ms generalizing cs with
  | nil => simp
  | cons a ms ih =>
    rw [List.foldl_cons, ih, cval_bumpCounter, List.count_cons]
    by_cases h : m = a
    · simp [h]
      omega
    · simp [h]
      exact fun hh => h hh.symm

theorem syncComplete_iff_cval (s : SyncState) (m : String) :
    syncComplete s m = true ↔ cval s.modelsToHistoricSync m = 0 := by
  unfold syncComplete cval
  cases h : findCounter s.modelsToHistoricSync m <;> simp

end SyncApi

/-! Theorems for the claims about the sync orchestrator. -/

namespace SyncApi

/-- C1: for every `BlockConfirmationEvent` with `reorganized = true` at
block number `N`, `_handleBlockProofs` enqueues exactly one historical-sync
job whose range is `[max(0, N - BLOCK_CONFIRMATIONS), N]` and whose models
are the current `ModelSyncSet`, and persists
`SyncProgress = { processedBlockHash: block.hash, processedBlockNumber: N }`;
the lower bound is clamped at `0` for every `N`. -/
theorem claim_C1_reorg_schedules_clamped_history_job
    (s : SyncState) (e : BlockConfirmationEvent) (h : e.reorganized = true) :
    (handleBlockProofs s e).jobs = s.jobs ++
      [(QueueName.history,
        { jobType := SyncJobType.catchup
          fromBlock := max 0 (e.block.number - BLOCK_CONFIRMATIONS)
          toBlock := e.block.number
          models := s.modelsToSync })] ∧
    (handleBlockProofs s e).progress =
      { processedBlockHash := some e.block.hash
        processedBlockNumber := some e.block.number } ∧
    (0 : Int) ≤ max 0 (e.block.number - BLOCK_CONFIRMATIONS) := by
  refine ⟨?_, ?_, le_max_left 0 _⟩ <;> simp [handleBlockProofs, addSyncJob, h]

/-- Witness for C1 at a reorganization at block 5 (< `BLOCK_CONFIRMATIONS`):
the scheduled range is clamped to `[0, 5]`. -/
theorem claim_C1_witness :
    (handleBlockProofs
        { modelsToSync := ["abc123", "def456"], modelsToHistoricSync := [],
          jobs := [], progress := { processedBlockHash := none, processedBlockNumber := none } }
        { block := { hash := "abc789", number := 5 }, reorganized := true }).jobs =
      [(QueueName.history,
        { jobType := SyncJobType.catchup, fromBlock := 0, toBlock := 5,
          models := ["abc123", "def456"] })] := by
  have h := (claim_C1_reorg_schedules_clamped_history_job
    { modelsToSync := ["abc123", "def456"], modelsToHistoricSync := [],
      jobs := [], progress := { processedBlockHash := none, processedBlockNumber := none } }
    { block := { hash := "abc789", number := 5 }, reorganized := true } rfl).1
  rw [h]
  norm_num [BLOCK_CONFIRMATIONS]

/-- C3: for every `BlockConfirmationEvent` with `reorganized = false` at
block number `N`, the handler enqueues exactly one continuous job with
`jobType` Continuous, `fromBlock = toBlock = N` and the current
`ModelSyncSet`, and the progress write to
`{ processedBlockHash: block.hash, processedBlockNumber: N }` is performed
unconditionally after scheduling, on both branches. -/
theorem claim_C3_nonreorg_schedules_continuous_job
    (s : SyncState) (e : BlockConfirmationEvent) :
    (handleBlockProofs s e).progress =
      { processedBlockHash := some e.block.hash
        processedBlockNumber := some e.block.number } ∧
    (e.reorganized = false →
      (handleBlockProofs s e).jobs = s.jobs ++
        [(QueueName.continuous,
          { jobType := SyncJobType.continuous
            fromBlock := e.block.number
            toBlock := e.block.number
            models := s.modelsToSync })]) := by
  constructor
  · cases h : e.reorganized <;> simp [handleBlockProofs, addSyncJob, h]
  · intro h
    simp [handleBlockProofs, addSyncJob, h]

/-- Witness for C3 at a forward advance to block 10. -/
theorem claim_C3_witness :
    (handleBlockProofs
        { modelsToSync := ["abc123", "def456"], modelsToHistoricSync := [],
          jobs := [], progress := { processedBlockHash := none, processedBlockNumber := none } }
        { block := { hash := "abc789", number := 10 }, reorganized := false }).progress =
      { processedBlockHash := some "abc789", processedBlockNumber := some 10 } ∧
    (handleBlockProofs
        { modelsToSync := ["abc123", "def456"], modelsToHistoricSync := [],
          jobs := [], progress := { processedBlockHash := none, processedBlockNumber := none } }
        { block := { hash := "abc789", number := 10 }, reorganized := false }).jobs =
      [(QueueName.continuous,
        { jobType := SyncJobType.continuous, fromBlock := 10, toBlock := 10,
          models := ["abc123", "def456"] })] := by
  have h := claim_C3_nonreorg_schedules_continuous_job
    { modelsToSync := ["abc123", "def456"], modelsToHistoricSync := [],
      jobs := [], progress := { processedBlockHash := none, processedBlockNumber := none } }
    { block := { hash := "abc789", number := 10 }, reorganized := false }
  exact ⟨h.1, h.2 rfl⟩

/-- C2: `init()` queries the chain provider for the block at depth
`BLOCK_CONFIRMATIONS` behind the head (`getBlock(-BLOCK_CONFIRMATIONS)`, the
safe tip) and decides catch-up by a three-way case split: unset stored
progress ⇒ exactly one historical job `[0, safeTip.number]` for all models
of the `ModelSyncSet`; `processedBlockNumber < safeTip.number` ⇒ exactly one
historical job `[processedBlockNumber, safeTip.number]`; otherwise no
catch-up job at all. -/
theorem claim_C2_init_catchup_case_split
    (getBlock : Int → Block) (p : SyncProgress) (ms : List String) (s : SyncState) :
    (initSync getBlock p ms s).modelsToSync = ms ∧
    (p.processedBlockNumber = none →
      (initSync getBlock p ms s).jobs = s.jobs ++
        [(QueueName.history,
          { jobType := SyncJobType.catchup, fromBlock := 0,
            toBlock := (getBlock (-BLOCK_CONFIRMATIONS)).number, models := ms })]) ∧
    (∀ n, p.processedBlockNumber = some n →
      n < (getBlock (-BLOCK_CONFIRMATIONS)).number →
      (initSync getBlock p ms s).jobs = s.jobs ++
        [(QueueName.history,
          { jobType := SyncJobType.catchup, fromBlock := n,
            toBlock := (getBlock (-BLOCK_CONFIRMATIONS)).number, models := ms })]) ∧
    (∀ n, p.processedBlockNumber = some n →
      ¬n < (getBlock (-BLOCK_CONFIRMATIONS)).number →
      (initSync getBlock p ms s).jobs = s.jobs) := by
  refine ⟨?_, ?_, ?_, ?_⟩
  · cases h : p.processedBlockNumber with
    | none => simp [initSync, addSyncJob, h]
    | some n =>
      by_cases hlt : n < (getBlock (-BLOCK_CONFIRMATIONS)).number <;>
        simp [initSync, addSyncJob, h, hlt]
  · intro h
    simp [initSync, addSyncJob, h]
  · intro n h hlt
    simp [initSync, addSyncJob, h, hlt]
  · intro n h hlt
    simp [initSync, addSyncJob, h, hlt]

/-- Witness for C2: safe tip `{number := 10, hash := "abc123"}`; a fresh
node enqueues `[0, 10]`, progress at 5 enqueues `[5, 10]`, progress at 10
enqueues nothing. -/
theorem claim_C2_witness :
    (initSync (fun _ => { hash := "abc123", number := 10 })
        { processedBlockHash := none, processedBlockNumber := none }
        ["abc123", "abc456"]
        { modelsToSync := [], modelsToHistoricSync := [], jobs := [],
          progress := { processedBlockHash := none, processedBlockNumber := none } }).jobs =
      [(QueueName.history,
        { jobType := SyncJobType.catchup, fromBlock := 0, toBlock := 10,
          models := ["abc123", "abc456"] })] ∧
    (initSync (fun _ => { hash := "abc123", number := 10 })
        { processedBlockHash := some "0x1", processedBlockNumber := some 5 }
        ["abc123", "abc456"]
        { modelsToSync := [], modelsToHistoricSync := [], jobs := [],
          progress := { processedBlockHash := none, processedBlockNumber := none } }).jobs =
      [(QueueName.history,
        { jobType := SyncJobType.catchup, fromBlock := 5, toBlock := 10,
          models := ["abc123", "abc456"] })] ∧
    (initSync (fun _ => { hash := "abc123", number := 10 })
        { processedBlockHash := some "0x1", processedBlockNumber := some 10 }
        ["abc123", "abc456"]
        { modelsToSync := [], modelsToHistoricSync := [], jobs := [],
          progress := { processedBlockHash := none, processedBlockNumber := none } }).jobs = [] := by
  refine ⟨?_, ?_, ?_⟩
  · exact (claim_C2_init_catchup_case_split (fun _ => { hash := "abc123", number := 10 })
      { processedBlockHash := none, processedBlockNumber := none } ["abc123", "abc456"]
      { modelsToSync := [], modelsToHistoricSync := [], jobs := [],
        progress := { processedBlockHash := none, processedBlockNumber := none } }).2.1 rfl
  · exact (claim_C2_init_catchup_case_split (fun _ => { hash := "abc123", number := 10 })
      { processedBlockHash := some "0x1", processedBlockNumber := some 5 } ["abc123", "abc456"]
      { modelsToSync := [], modelsToHistoricSync := [], jobs := [],
        progress := { processedBlockHash := none, processedBlockNumber := none } }).2.2.1 5 rfl
      (by norm_num)
  · exact (claim_C2_init_catchup_case_split (fun _ => { hash := "abc123", number := 10 })
      { processedBlockHash := some "0x1", processedBlockNumber := some 10 } ["abc123", "abc456"]
      { modelsToSync := [], modelsToHistoricSync := [], jobs := [],
        progress := { processedBlockHash := none, processedBlockNumber := none } }).2.2.2 10 rfl
      (by norm_num)

/-- C4: `syncComplete(modelId)` is true iff `HistoricSyncCounter[modelId]`
is zero or absent; `_addSyncJob(queueName, data)` increments the counter of
each model of `data.models` exactly when the queue is the historical queue
(creating absent entries), so that right after enqueueing a historical job
containing model `m`, `syncComplete(m)` is false, while a continuous enqueue
changes no counter. -/
theorem claim_C4_syncComplete_and_counters
    (s : SyncState) (q : QueueName) (d : SyncJobData) (m : String) :
    (syncComplete s m = true ↔
      (findCounter s.modelsToHistoricSync m = none ∨
       findCounter s.modelsToHistoricSync m = some 0)) ∧
    cval (addSyncJob s q d).modelsToHistoricSync m =
      cval s.modelsToHistoricSync m +
        (if q = QueueName.history then d.models.count m else 0) ∧
    (m ∈ d.models → q = QueueName.history →
      syncComplete (addSyncJob s q d) m = false) ∧
    (addSyncJob s QueueName.continuous d).modelsToHistoricSync =
      s.modelsToHistoricSync := by
  have hcount : cval (addSyncJob s q d).modelsToHistoricSync m =
      cval s.modelsToHistoricSync m +
        (if q = QueueName.history then d.models.count m else 0) := by
    by_cases hq : q = QueueName.history <;>
      simp [addSyncJob, hq, cval_foldl_bump]
  refine ⟨?_, hcount, ?_, ?_⟩
  · unfold syncComplete
    cases h : findCounter s.modelsToHistoricSync m with
    | none => simp
    | some v => simp [Nat.beq_eq_true_eq]
  · intro hm hq
    have hpos : 0 < d.models.count m := List.count_pos_iff.mpr hm
    cases hb : syncComplete (addSyncJob s q d) m with
    | false => rfl
    | true =>
      exfalso
      have h0 := (syncComplete_iff_cval (addSyncJob s q d) m).mp hb
      rw [hcount, hq] at h0
      simp at h0
      omega
  · simp [addSyncJob]

/-- Witness for C4 on a historical job over models `["abc123", "abc456"]`:
`syncComplete "abc123"` flips from true to false, and a continuous enqueue
leaves the counters untouched. -/
theorem claim_C4_witness :
    syncComplete
      { modelsToSync := [], modelsToHistoricSync := [], jobs := [],
        progress := { processedBlockHash := none, processedBlockNumber := none } }
      "abc123" = true ∧
    syncComplete
      (addSyncJob
        { modelsToSync := [], modelsToHistoricSync := [], jobs := [],
          progress := { processedBlockHash := none, processedBlockNumber := none } }
        QueueName.history
        { jobType := SyncJobType.full, fromBlock := 1, toBlock := 10,
          models := ["abc123", "abc456"] })
      "abc123" = false := by
  constructor
  · rfl
  · exact (claim_C4_syncComplete_and_counters
      { modelsToSync := [], modelsToHistoricSync := [], jobs := [],
        progress := { processedBlockHash := none, processedBlockNumber := none } }
      QueueName.history
      { jobType := SyncJobType.full, fromBlock := 1, toBlock := 10,
        models := ["abc123", "abc456"] }
      "abc123").2.2.1 (by simp) rfl

/-- C7: `startModelSync(m, f, t)` and `startModelSync([m], f, t)` leave the
`ModelSyncSet` (and the whole state) identical and enqueue the same single
historical job `{fromBlock := f, toBlock := t, models := [m]}`; adding a
model already present leaves set membership unchanged. -/
theorem claim_C7_startModelSync_normalization
    (s : SyncState) (m : String) (f t : Int) (h : f ≤ t) :
    startModelSync s (ModelInput.one m) f t = startModelSync s (ModelInput.many [m]) f t ∧
    (startModelSync s (ModelInput.one m) f t).jobs = s.jobs ++
      [(QueueName.history,
        { jobType := SyncJobType.catchup, fromBlock := f, toBlock := t, models := [m] })] ∧
    (m ∈ s.modelsToSync →
      (startModelSync s (ModelInput.one m) f t).modelsToSync = s.modelsToSync) ∧
    (∀ m2, m2 ∈ (startModelSync s (ModelInput.one m) f t).modelsToSync ↔
      (m2 ∈ s.modelsToSync ∨ m2 = m)) := by
  refine ⟨rfl, ?_, ?_, ?_⟩
  · simp [startModelSync, addSyncJob, ModelInput.normalize]
  · intro hm
    simp [startModelSync, addSyncJob, ModelInput.normalize, insertModel, hm]
  · intro m2
    by_cases hm : m ∈ s.modelsToSync
    · simp [startModelSync, addSyncJob, ModelInput.normalize, insertModel, hm]
      intro hh
      exact hh ▸ hm
    · simp [startModelSync, addSyncJob, ModelInput.normalize, insertModel, hm]

/-- Witness for C7 at `m = "abc123"`, `f = 1`, `t = 10`, from a state
already containing the model: the job is enqueued and the set is
unchanged. -/
theorem claim_C7_witness :
    (startModelSync
        { modelsToSync := ["abc123"], modelsToHistoricSync := [], jobs := [],
          progress := { processedBlockHash := none, processedBlockNumber := none } }
        (ModelInput.one "abc123") 1 10) =
      (startModelSync
        { modelsToSync := ["abc123"], modelsToHistoricSync := [], jobs := [],
          progress := { processedBlockHash := none, processedBlockNumber := none } }
        (ModelInput.many ["abc123"]) 1 10) ∧
    (startModelSync
        { modelsToSync := ["abc123"], modelsToHistoricSync := [], jobs := [],
          progress := { processedBlockHash := none, processedBlockNumber := none } }
        (ModelInput.one "abc123") 1 10).modelsToSync = ["abc123"] := by
  have h := claim_C7_startModelSync_normalization
    { modelsToSync := ["abc123"], modelsToHistoricSync := [], jobs := [],
      progress := { processedBlockHash := none, processedBlockNumber := none } }
    "abc123" 1 10 (by norm_num)
  exact ⟨h.1, h.2.2.1 (by simp)⟩

/-- C6: the `continuousSync` entry of `syncStatus()` is derived by case
split — with an active continuous job its `currentBlock` is that job's
`data.fromBlock` and its models are the job's models; with none,
`currentBlock = orchestrator.currentBlock - BLOCK_CONFIRMATIONS` and the
models are the `ModelSyncSet`; in both cases
`confirmations = BLOCK_CONFIRMATIONS`, `latestBlock = currentBlock` of the
orchestrator and `startBlock = orchestrator.startBlock`. -/
theorem claim_C6_syncStatus_continuous_entry
    (aH aC cH : List QueuedJob) (cur sb : Int) (ms : List String) :
    (∀ j rest, aC = j :: rest →
      (syncStatus aH aC cH cur sb ms).continuousSync =
        [{ confirmations := BLOCK_CONFIRMATIONS, currentBlock := j.data.fromBlock,
           latestBlock := cur, startBlock := sb, models := j.data.models }]) ∧
    (aC = [] →
      (syncStatus aH aC cH cur sb ms).continuousSync =
        [{ confirmations := BLOCK_CONFIRMATIONS,
           currentBlock := cur - BLOCK_CONFIRMATIONS,
           latestBlock := cur, startBlock := sb, models := ms }]) := by
  constructor
  · intro j rest h
    simp [syncStatus, h]
  · intro h
    simp [syncStatus, h]

/-- Witness for C6: with no active continuous job, `currentBlock = 499` and
`BLOCK_CONFIRMATIONS = 20`, the reported `continuousSync.currentBlock` is
`479`; with an active continuous job at `fromBlock = 450`, it is `450`. -/
theorem claim_C6_witness :
    (syncStatus [] [] [] 499 400
        ["kjzl6hvfrbw6c6ngtt7harvn6qb4g1t5rt7wa1yt4giolyi6pxbyti1gjf9tv8k"]).continuousSync =
      [{ confirmations := 20, currentBlock := 479, latestBlock := 499, startBlock := 400,
         models := ["kjzl6hvfrbw6c6ngtt7harvn6qb4g1t5rt7wa1yt4giolyi6pxbyti1gjf9tv8k"] }] ∧
    (syncStatus []
        [{ data := { jobType := SyncJobType.continuous, fromBlock := 450, toBlock := 500,
                     models := ["m1"] },
           currentBlock := none, id := "23456", createdOn := 0, startedOn := some 1 }]
        [] 499 400 ["m2"]).continuousSync =
      [{ confirmations := 20, currentBlock := 450, latestBlock := 499, startBlock := 400,
         models := ["m1"] }] := by
  constructor
  · have h := (claim_C6_syncStatus_continuous_entry [] [] [] 499 400
      ["kjzl6hvfrbw6c6ngtt7harvn6qb4g1t5rt7wa1yt4giolyi6pxbyti1gjf9tv8k"]).2 rfl
    rw [h]
    norm_num [BLOCK_CONFIRMATIONS]
  · have h := (claim_C6_syncStatus_continuous_entry []
      [{ data := { jobType := SyncJobType.continuous, fromBlock := 450, toBlock := 500,
                   models := ["m1"] },
         currentBlock := none, id := "23456", createdOn := 0, startedOn := some 1 }]
      [] 499 400 ["m2"]).1
      { data := { jobType := SyncJobType.continuous, fromBlock := 450, toBlock := 500,
                  models := ["m1"] },
        currentBlock := none, id := "23456", createdOn := 0, startedOn := some 1 }
      [] rfl
    rw [h]
    norm_num [BLOCK_CONFIRMATIONS]

end SyncApi

/-! Theorems for the claims about the index/query layer. -/

namespace Indexing

/-- Backend with the `allowQueriesBeforeHistoricalSync` bypass enabled and
one indexed model `m1` whose historical sync is not complete. -/
def bypassBackend : DatabaseIndexState :=
  { indexedModels := ["m1"], noLongerIndexed := [],
    allowQueriesBeforeHistoricalSync := true,
    syncComplete := fun _ => false,
    rows := [], dbCount := fun _ => 7, dbPage := fun _ => ["s1"] }

/-- C5 counterexample: with the backend constructed with
`allowQueriesBeforeHistoricalSync = true`, model `m1` has
`syncComplete = false`, yet `count` and `page` return results instead of
raising `IndexQueryNotAvailableError` — refuting the claim that the index
layer refuses query access for every model whose sync is incomplete. -/
theorem claim_C5_counterexample :
    bypassBackend.syncComplete "m1" = false ∧
    countQuery bypassBackend { model := "m1", account := none } = Except.ok 7 ∧
    pageQuery bypassBackend { model := "m1", account := none } = Except.ok ["s1"] := by
  refine ⟨rfl, ?_, ?_⟩ <;> rfl

/-- C5 (amended): when the backend is constructed with
`allowQueriesBeforeHistoricalSync = false` and the queried model is
indexed, both `count` and `page` raise `IndexQueryNotAvailableError` (via
`assertNoOngoingSyncForModel`) whenever `syncComplete` is false for that
model, and return normally once it is true. -/
theorem claim_C5_gating_amended (b : DatabaseIndexState) (q : BaseQuery)
    (hflag : b.allowQueriesBeforeHistoricalSync = false)
    (hidx : q.model ∈ b.indexedModels) :
    (b.syncComplete q.model = false →
      countQuery b q = Except.error (IndexError.queryNotAvailable q.model) ∧
      pageQuery b q = Except.error (IndexError.queryNotAvailable q.model)) ∧
    (b.syncComplete q.model = true →
      countQuery b q = Except.ok (b.dbCount q) ∧
      pageQuery b q = Except.ok (b.dbPage q)) := by
  constructor <;> intro hsc <;>
    simp [countQuery, pageQuery, assertModelQueryable, assertModelIsIndexed,
      assertNoOngoingSyncForModel, hflag, hidx, hsc, Bind.bind, Except.bind, Pure.pure, Except.pure]

/-- Backend with the gate active (`allowQueriesBeforeHistoricalSync =
false`) and one indexed model `m1` whose historical sync completeness is
decided per model id. -/
def gatedBackend (complete : Bool) : DatabaseIndexState :=
  { indexedModels := ["m1"], noLongerIndexed := [],
    allowQueriesBeforeHistoricalSync := false,
    syncComplete := fun _ => complete,
    rows := [], dbCount := fun _ => 7, dbPage := fun _ => ["s1"] }

/-- Witness for the amended C5: with the gate active, the incomplete model
is refused with `IndexQueryNotAvailableError` and the complete one is
served. -/
theorem claim_C5_witness :
    countQuery (gatedBackend false) { model := "m1", account := none } =
      Except.error (IndexError.queryNotAvailable "m1") ∧
    countQuery (gatedBackend true) { model := "m1", account := none } = Except.ok 7 := by
  constructor
  · exact ((claim_C5_gating_amended (gatedBackend false) { model := "m1", account := none }
      rfl (by simp [gatedBackend])).1 rfl).1
  · exact ((claim_C5_gating_amended (gatedBackend true) { model := "m1", account := none }
      rfl (by simp [gatedBackend])).2 rfl).1

/-- C8: when the index backend is constructed with
`allowQueriesBeforeHistoricalSync = true`, `assertNoOngoingSyncForModel`
never throws, for any model and any `syncComplete` state, and `count` /
`page` over an indexed model are served regardless of historical-sync
completeness. -/
theorem claim_C8_bypass_flag_disables_gating
    (b : DatabaseIndexState) (m : String) (q : BaseQuery)
    (h : b.allowQueriesBeforeHistoricalSync = true) :
    assertNoOngoingSyncForModel b m = Except.ok () ∧
    (q.model ∈ b.indexedModels →
      countQuery b q = Except.ok (b.dbCount q) ∧
      pageQuery b q = Except.ok (b.dbPage q)) := by
  constructor
  · simp [assertNoOngoingSyncForModel, h]
  · intro hidx
    constructor <;>
      simp [countQuery, pageQuery, assertModelQueryable, assertModelIsIndexed,
        assertNoOngoingSyncForModel, h, hidx, Bind.bind, Except.bind, Pure.pure, Except.pure]

/-- Witness for C8 on `bypassBackend` (flag on, sync incomplete for every
model): the gate passes and queries are served. -/
theorem claim_C8_witness :
    assertNoOngoingSyncForModel bypassBackend "m1" = Except.ok () ∧
    countQuery bypassBackend { model := "m1", account := none } = Except.ok 7 := by
  have h := claim_C8_bypass_flag_disables_gating bypassBackend "m1"
    { model := "m1", account := none } rfl
  exact ⟨h.1, (h.2 (by simp [bypassBackend])).1⟩

/-- C9: `LocalIndexApi.indexStream` over a model that is not among the
indexed models (including the case of no configured database backend)
returns without performing any write: the state is unchanged. -/
theorem claim_C9_indexStream_frame (s : LocalIndexState) (args : IndexStreamArgs)
    (h : ∀ b, s.backend = some b → args.model ∉ b.indexedModels) :
    indexStream s args = s := by
  have hs : shouldIndexStream s args.model = false := by
    cases hb : s.backend with
    | none => simp [shouldIndexStream, hb]
    | some b =>
      simp [shouldIndexStream, hb]
      exact h b hb
  simp [indexStream, hs]

/-- Witness for C9: both without a backend and with a backend that indexes
only `m1`, indexing a stream of model `m2` leaves the state untouched. -/
theorem claim_C9_witness :
    indexStream { backend := none } { streamID := "s1", model := "m2" } =
      { backend := none } ∧
    indexStream { backend := some (gatedBackend true) }
        { streamID := "s1", model := "m2" } =
      { backend := some (gatedBackend true) } := by
  constructor
  · exact claim_C9_indexStream_frame { backend := none }
      { streamID := "s1", model := "m2" } (by intro b hb; cases hb)
  · exact claim_C9_indexStream_frame { backend := some (gatedBackend true) }
      { streamID := "s1", model := "m2" }
      (by intro b hb; cases hb; simp [gatedBackend])

/-- C10: if any model of the list passed to `LocalIndexApi.indexModels` is
among the models no longer indexed, the call throws
`Cannot re-index model ...` with the state exactly as it was — before any
model of the list is registered for indexing. -/
theorem claim_C10_reindex_rejected (s : LocalIndexState) (b : DatabaseIndexState)
    (ms : List String) (m : String)
    (hb : s.backend = some b) (hm : m ∈ ms) (hnl : m ∈ b.noLongerIndexed) :
    ∃ m2, indexModels s (some ms) = Except.error (IndexError.cannotReIndex m2, s) ∧
      m2 ∈ ms ∧ m2 ∈ b.noLongerIndexed := by
  have hex : (findReindexViolation b.noLongerIndexed ms).isSome := by
    unfold findReindexViolation
    rw [List.find?_isSome]
    exact ⟨m, hm, by simpa using hnl⟩
  obtain ⟨m2, hm2⟩ := Option.isSome_iff_exists.mp hex
  refine ⟨m2, ?_, ?_, ?_⟩
  · simp [indexModels, hb, hm2]
  · exact List.mem_of_find?_eq_some (by simpa [findReindexViolation] using hm2)
  · have hp := List.find?_some (p := fun m => b.noLongerIndexed.contains m)
      (by simpa [findReindexViolation] using hm2)
    simpa using hp

/-- Backend whose config table records `m1` as previously indexed and then
stopped (`is_indexed = false`). -/
def stoppedBackend : DatabaseIndexState :=
  { indexedModels := [], noLongerIndexed := ["m1"],
    allowQueriesBeforeHistoricalSync := false,
    syncComplete := fun _ => true,
    rows := [], dbCount := fun _ => 0, dbPage := fun _ => [] }

/-- Witness for C10: asking to index `["m2", "m1"]` with `m1` stopped
throws `Cannot re-index model m1` and leaves the state unchanged. -/
theorem claim_C10_witness :
    ∃ m2, indexModels { backend := some stoppedBackend } (some ["m2", "m1"]) =
        Except.error (IndexError.cannotReIndex m2, { backend := some stoppedBackend }) ∧
      m2 ∈ ["m2", "m1"] ∧ m2 ∈ stoppedBackend.noLongerIndexed := by
  exact claim_C10_reindex_rejected { backend := some stoppedBackend } stoppedBackend
    ["m2", "m1"] "m1" rfl (by simp) (by simp [stoppedBackend])

end Indexing

end Ceramic
